import Mathlib

/-!
# Wizpr-Suite core: shallow embedding and verification

This file embeds the event-driven core of the Wizpr-Suite desktop application
(`core/event_bus.py`, `core/action_router.py`, `core/config.py`,
`ble/ble_manager.py`, `ble/ring_controller.py`, and the mapping-table logic of
`ui/main_window.py`) as executable Lean definitions, and proves (or refutes)
the specification's claims about them.

Conventions of the embedding:
* Python `async` handlers are modelled as state transformers
  `state → state × Option error`: the returned `Option` component is the
  exception the handler raised, if any (the `Exception` hierarchy); the state
  component is the world as the handler left it, including any side effects it
  performed before raising.
* Python dictionaries are modelled as insertion-ordered association lists,
  with assignment updating an existing key in place and inserting a fresh key
  at the end (CPython's documented ordering semantics).
* Callable handler objects are referenced through numeric identifiers plus an
  environment function giving each identifier's behaviour, so that handler
  lists can live inside first-order state.
-/

namespace WizprSuite

/-! ## EventBus (`core/event_bus.py`)

`EventBus` keeps `self._subs: DefaultDict[str, list[Handler]]`.  `subscribe`
appends; `publish` iterates over a copy (`list(self._subs[topic])`) of the
topic's handler list, awaiting each handler and swallowing any `Exception` it
raises (`except Exception: continue`). -/

/-- The mutable state visible to bus handlers: the bus's own subscription map
(so that a handler can subscribe further handlers mid-publish) together with a
caller-chosen component `σ` standing for the rest of the program's state. -/
structure BusState (σ : Type) where
  subs : List (String × List Nat)
  user : σ
deriving DecidableEq

/-- Membership/lookup in the subscription map: `topic in self._subs` combined
with the read `self._subs[topic]`. -/
def findSubs : List (String × List Nat) → String → Option (List Nat)
  | [], _ => none
  | (t, hs) :: rest, topic => if t = topic then some hs else findSubs rest topic

/-- `EventBus.subscribe`'s mutation `self._subs[topic].append(handler)` on a
`defaultdict(list)`: a missing topic first gets a fresh empty list, then the
handler id is appended at the end. -/
def appendSub : List (String × List Nat) → String → Nat → List (String × List Nat)
  | [], topic, hid => [(topic, [hid])]
  | (t, hs) :: rest, topic, hid =>
      if t = topic then (t, hs ++ [hid]) :: rest
      else (t, hs) :: appendSub rest topic hid

/-- `EventBus.subscribe(topic, handler)`. -/
def subscribe (st : BusState σ) (topic : String) (hid : Nat) : BusState σ :=
  { st with subs := appendSub st.subs topic hid }

/-- Behaviour environment for bus handlers: handler `hid`, applied to a
payload, transforms the full `BusState` and optionally raises. -/
def HandlerEnv (σ ε α : Type) := Nat → α → BusState σ → BusState σ × Option ε

/-- `EventBus.publish(topic, payload)`:
`if topic not in self._subs: return`, then
`for h in list(self._subs[topic]): try: await h(payload) except Exception: continue`.
The snapshot `list(...)` is the single read of the handler list before the
loop; the `except ... continue` keeps the state the handler produced up to the
raise and drops the exception, and `publish` itself returns plainly (it can
never surface a handler failure to the publisher). -/
def publish (env : HandlerEnv σ ε α) (topic : String) (payload : α)
    (st : BusState σ) : BusState σ :=
  match findSubs st.subs topic with
  | none => st
  | some hs => hs.foldl (fun s hid => (env hid payload s).1) st

/-- Stub handler family used to observe the failure-isolation invariant: every
handler appends its own id to the log, and handler `k` additionally raises
after doing so. -/
def stubEnv (k : Nat) : HandlerEnv (List Nat) Unit α :=
  fun hid _ s => ({ s with user := s.user ++ [hid] }, if hid = k then some () else none)

/-- Handler family used to observe the snapshot semantics: every handler logs
its own id, and handler `j` additionally subscribes the new handler `m` to the
published topic mid-publish. -/
def selfSubEnv (j m : Nat) (topic : String) : HandlerEnv (List Nat) Unit α :=
  fun hid _ s =>
    let s1 := { s with user := s.user ++ [hid] }
    (if hid = j then subscribe s1 topic m else s1, none)

theorem foldl_stubEnv (k : Nat) (payload : α) :
    ∀ (l : List Nat) (st : BusState (List Nat)),
      l.foldl (fun s hid => (stubEnv k hid payload s).1) st
        = { subs := st.subs, user := st.user ++ l } := by
  intro l
  induction l with
  | nil => intro st; simp
  | cons h t ih =>
      intro st
      rw [List.foldl_cons, ih]
      simp [stubEnv]

theorem foldl_selfSubEnv_of_not_mem (j m : Nat) (topic : String) (payload : α) :
    ∀ (l : List Nat), j ∉ l → ∀ st : BusState (List Nat),
      l.foldl (fun s hid => (selfSubEnv j m topic hid payload s).1) st
        = { subs := st.subs, user := st.user ++ l } := by
  intro l
  induction l with
  | nil => intro _ st; simp
  | cons h t ih =>
      intro hnot st
      rw [List.foldl_cons, ih (fun hmem => hnot (List.mem_cons_of_mem _ hmem))]
      have hne : h ≠ j := fun he => hnot (he ▸ List.mem_cons_self _ _)
      simp [selfSubEnv, hne]

/-- **C1.** On a topic with handler list `hs`, `publish` invokes every handler,
in subscription order (the log comes out equal to `hs` itself), even though the
handler `k ∈ hs` raises; the raise is swallowed at the bus boundary: the
remaining handlers still append their ids after `k` does, and `publish` returns
an ordinary state (its type admits no escaping exception), leaving the
subscriptions untouched. -/
theorem publish_failure_isolation (hs : List Nat) (k : Nat) (payload : α)
    (_hk : k ∈ hs) :
    publish (stubEnv k) "topic" payload ⟨[("topic", hs)], []⟩
      = ⟨[("topic", hs)], hs⟩ := by
  simp [publish, findSubs, foldl_stubEnv]

/-- Witness for `publish_failure_isolation`: three handlers, the middle one
raising; all three run in order. -/
theorem publish_failure_isolation_witness :
    (1 : Nat) ∈ [0, 1, 2] ∧
      publish (stubEnv 1) "topic" (0 : Nat) ⟨[("topic", [0, 1, 2])], []⟩
        = ⟨[("topic", [0, 1, 2])], [0, 1, 2]⟩ :=
  ⟨by decide, publish_failure_isolation [0, 1, 2] 1 0 (by decide)⟩

/-- **C10.** `publish` iterates over the snapshot `list(self._subs[topic])`:
with subscribed handlers `l₁ ++ j :: l₂`, where handler `j` subscribes the
fresh handler `m` to the same topic mid-publish, the publish invokes exactly
the original handlers in order (log `l₁ ++ j :: l₂`, which does not contain
`m`), while the final subscription list does end with the newly added `m`. -/
theorem publish_snapshot (l₁ l₂ : List Nat) (j m : Nat) (payload : α)
    (h1 : j ∉ l₁) (h2 : j ∉ l₂) (h3 : m ∉ l₁) (h4 : m ≠ j) (h5 : m ∉ l₂) :
    publish (selfSubEnv j m "topic") "topic" payload ⟨[("topic", l₁ ++ j :: l₂)], []⟩
      = ⟨[("topic", (l₁ ++ j :: l₂) ++ [m])], l₁ ++ j :: l₂⟩
    ∧ m ∉ l₁ ++ j :: l₂ := by
  constructor
  · have hfind : findSubs [("topic", l₁ ++ j :: l₂)] "topic" = some (l₁ ++ j :: l₂) := by
      simp [findSubs]
    simp only [publish, hfind]
    rw [List.foldl_append, foldl_selfSubEnv_of_not_mem j m "topic" payload l₁ h1,
      List.foldl_cons]
    have hj : (selfSubEnv j m "topic" j payload
        ⟨[("topic", l₁ ++ j :: l₂)], ([] : List Nat) ++ l₁⟩).1
        = ⟨[("topic", (l₁ ++ j :: l₂) ++ [m])], (([] : List Nat) ++ l₁) ++ [j]⟩ := by
      simp [selfSubEnv, subscribe, appendSub]
    rw [hj, foldl_selfSubEnv_of_not_mem j m "topic" payload l₂ h2]
    simp
  · simp only [List.mem_append, List.mem_cons]
    rintro (hm | hm | hm)
    · exact h3 hm
    · exact h4 hm
    · exact h5 hm

/-- Witness for `publish_snapshot`: handlers `[0, 1]`, handler `1` subscribes
handler `5` mid-publish; only `0` and `1` run, and `5` ends up subscribed. -/
theorem publish_snapshot_witness :
    (1 : Nat) ∉ [0] ∧ (1 : Nat) ∉ ([] : List Nat) ∧ (5 : Nat) ∉ [0]
    ∧ (5 : Nat) ≠ 1 ∧ (5 : Nat) ∉ ([] : List Nat) ∧
      (publish (selfSubEnv 1 5 "topic") "topic" (0 : Nat) ⟨[("topic", [0] ++ 1 :: [])], []⟩
          = ⟨[("topic", ([0] ++ 1 :: []) ++ [5])], [0] ++ 1 :: []⟩
        ∧ (5 : Nat) ∉ [0] ++ 1 :: []) :=
  ⟨by decide, by decide, by decide, by decide, by decide,
    publish_snapshot [0] [] 1 5 0 (by decide) (by decide) (by decide) (by decide) (by decide)⟩

/-! ## ActionRouter (`core/action_router.py`)

`ActionRouter` keeps `self._handlers: Dict[str, ActionHandler]`;
`register_action_handler` is a plain dict assignment, `dispatch` looks the
action up, silently returns when it is absent, and otherwise awaits the
handler on `payload or {"action": action}`. -/

/-- The handler registry `self._handlers`, as an insertion-ordered association
list from action names to handler ids (Python dict semantics). -/
abbrev Registry := List (String × Nat)

/-- Python dict assignment `self._handlers[action] = handler`: an existing key
is updated in place, a fresh key is appended at the end. -/
def register_action_handler : Registry → String → Nat → Registry
  | [], action, hid => [(action, hid)]
  | (a, h) :: rest, action, hid =>
      if a = action then (a, hid) :: rest
      else (a, h) :: register_action_handler rest action hid

/-- `self._handlers.get(action)`. -/
def getHandler : Registry → String → Option Nat
  | [], _ => none
  | (a, h) :: rest, action => if a = action then some h else getHandler rest action

/-- A Python `dict[str, Any]` payload, as an association list with string
values (the payloads the source builds are string-valued). -/
abbrev PyDict := List (String × String)

/-- The argument expression `payload or {"action": action}`: Python `or`
yields the right operand when the left is falsy, and a payload is falsy when
it is `None` or an empty dict. -/
def payloadOrDefault (payload : Option PyDict) (action : String) : PyDict :=
  match payload with
  | none => [("action", action)]
  | some d => if d = [] then [("action", action)] else d

/-- Behaviour environment for action handlers: handler `hid` applied to its
payload dict transforms a state `σ` and may raise `ε`. -/
def ActionEnv (σ ε : Type) := Nat → PyDict → σ → σ × Option ε

/-- `ActionRouter.dispatch(action, payload)`:
`h = self._handlers.get(action); if not h: return; await h(payload or {"action": action})`.
(A handler object is always truthy, so `if not h` fires exactly on a missed
lookup.)  Failures of the handler itself are not caught here. -/
def dispatch (env : ActionEnv σ ε) (r : Registry) (action : String)
    (payload : Option PyDict) (st : σ) : σ × Option ε :=
  match getHandler r action with
  | none => (st, none)
  | some hid => env hid (payloadOrDefault payload action) st

theorem getHandler_register_twice (r : Registry) (a : String) (h1 h2 : Nat) :
    getHandler (register_action_handler (register_action_handler r a h1) a h2) a
      = some h2 := by
  induction r with
  | nil => simp [register_action_handler, getHandler]
  | cons p rest ih =>
      by_cases hp : p.1 = a
      · simp [register_action_handler, hp, getHandler]
      · simp [register_action_handler, hp, getHandler, ih]

/-- **C8.** Dispatching an unregistered action name completes without error
and leaves the state untouched, and after registering `h1` then `h2` under the
same name, dispatch invokes `h2` (last registration wins). -/
theorem dispatch_unknown_and_last_wins (env : ActionEnv σ ε) (r : Registry)
    (a : String) (p : Option PyDict) (st : σ) (h1 h2 : Nat)
    (habs : getHandler r a = none) :
    dispatch env r a p st = (st, none)
    ∧ dispatch env (register_action_handler (register_action_handler r a h1) a h2) a p st
        = env h2 (payloadOrDefault p a) st := by
  constructor
  · simp [dispatch, habs]
  · simp [dispatch, getHandler_register_twice]

/-- Recording environment used by the router witnesses: each invoked handler
appends `(its id, the payload it received)` to the log and never raises. -/
def recordEnv : ActionEnv (List (Nat × PyDict)) Unit :=
  fun hid d s => (s ++ [(hid, d)], none)

/-- Witness for `dispatch_unknown_and_last_wins`: empty registry for the
unknown-name part; handlers `7` then `9` registered under `toggle_listen` for
the last-wins part. -/
theorem dispatch_unknown_and_last_wins_witness :
    getHandler [] "toggle_listen" = none ∧
      (dispatch recordEnv [] "toggle_listen" none [] = ([], none)
        ∧ dispatch recordEnv
            (register_action_handler (register_action_handler [] "toggle_listen" 7)
              "toggle_listen" 9) "toggle_listen" none []
          = recordEnv 9 (payloadOrDefault none "toggle_listen") []) :=
  ⟨rfl, dispatch_unknown_and_last_wins recordEnv [] "toggle_listen" none [] 7 9 rfl⟩

/-- **C9.** Because the default is applied via Python's `or`, an explicitly
passed empty payload dict is replaced by `{"action": action}` before the
handler runs, and no call can ever hand a handler the empty dict: for every
payload argument, the dict actually passed is nonempty. -/
theorem dispatch_empty_payload_default (env : ActionEnv σ ε) (r : Registry)
    (a : String) (st : σ) (hid : Nat) (hreg : getHandler r a = some hid) :
    dispatch env r a (some []) st = env hid [("action", a)] st
    ∧ ∀ p : Option PyDict, payloadOrDefault p a ≠ [] := by
  constructor
  · simp [dispatch, hreg, payloadOrDefault]
  · intro p
    match p with
    | none => simp [payloadOrDefault]
    | some d =>
        by_cases hd : d = []
        · simp [payloadOrDefault, hd]
        · simp [payloadOrDefault, hd]

/-- Witness for `dispatch_empty_payload_default`: handler `3` registered under
`toggle_listen`, dispatched with the explicit empty dict. -/
theorem dispatch_empty_payload_default_witness :
    getHandler [("toggle_listen", 3)] "toggle_listen" = some 3 ∧
      (dispatch recordEnv [("toggle_listen", 3)] "toggle_listen" (some []) []
          = recordEnv 3 [("action", "toggle_listen")] []
        ∧ ∀ p : Option PyDict, payloadOrDefault p "toggle_listen" ≠ []) :=
  ⟨rfl, dispatch_empty_payload_default recordEnv [("toggle_listen", 3)]
    "toggle_listen" [] 3 rfl⟩

/-! ## Python errors raised by the literal models in this file -/

/-- The Python exceptions the literal models below can raise. -/
inductive PyErr where
  | attributeError
  | typeError
deriving DecidableEq

/-! ## MappingTable (`ui/main_window.py`)

`cfg.mappings` is a `dict[str, list[str]]` from action names to their trigger
topics — when it is a dict at all: the undecorated `AppConfig` leaves it
`None` in every state `load_config` can produce (see the `load_config` section
below).  `_add_mapping` reads and strips the UI fields, rejects an empty
trigger, then mutates via `mappings.setdefault(action, [])` followed by a
membership-guarded `append`; `_remove_mapping` runs a membership-guarded
`list.remove` per selected table row; both methods end with an unconditional
`save_config(self.app_dir, self.cfg)`, whose `asdict(cfg)` raises `TypeError`
because `AppConfig` is not actually a dataclass.  The dispatcher `_handle` in
`_wire_bus` iterates `mappings.items()` and fires every action whose trigger
list contains the published topic. -/

/-- `cfg.mappings`, as an insertion-ordered association list from action name
to its trigger-topic list. -/
abbrev MappingTable := List (String × List String)

/-- `action in mappings`. -/
def containsAction : MappingTable → String → Bool
  | [], _ => false
  | (a, _) :: rest, action => a = action || containsAction rest action

/-- The dict read `mappings[action]` (first entry with the key; `[]` when the
key is absent, a case the source always guards against). -/
def lookupTriggers : MappingTable → String → List String
  | [], _ => []
  | (a, ts) :: rest, action => if a = action then ts else lookupTriggers rest action

/-- In-place mutation of the entry under `action` (Python mutates the unique
list object held by the dict; here: rewrite the first entry with that key). -/
def mapEntry : MappingTable → String → (List String → List String) → MappingTable
  | [], _, _ => []
  | (a, ts) :: rest, action, f =>
      if a = action then (a, f ts) :: rest else (a, ts) :: mapEntry rest action f

/-- `mappings.setdefault(action, [])`: insert `(action, [])` at the end iff the
key is absent. -/
def setdefaultEmpty (m : MappingTable) (action : String) : MappingTable :=
  if containsAction m action then m else m ++ [(action, [])]

/-- The in-memory mutation inside `_add_mapping`, reached when the trigger is
nonempty and `cfg.mappings` is a dict: `mappings.setdefault(action, [])`, then
`if trig not in mappings[action]: mappings[action].append(trig)`. -/
def addMappingMutation (m : MappingTable) (action trig : String) : MappingTable :=
  mapEntry (setdefaultEmpty m action) action
    (fun ts => if trig ∈ ts then ts else ts ++ [trig])

/-- The in-memory mutation for one selected row of `_remove_mapping`:
`if action in (mappings or {}) and trig in mappings[action]:
mappings[action].remove(trig)` (`list.remove` deletes the first occurrence). -/
def removeMappingMutation (m : MappingTable) (action trig : String) : MappingTable :=
  if containsAction m action ∧ trig ∈ lookupTriggers m action then
    mapEntry m action (fun ts => ts.erase trig)
  else m

/-- `MainWindow._add_mapping` in full, as a transformer of `cfg.mappings`
with an error channel (`trig` and `action` stand for the already-stripped UI
texts).  An empty trigger returns early (`"Trigger is required."`, no flush).
Otherwise `self.cfg.mappings.setdefault(action, [])` raises `AttributeError`
when `mappings` is `None` — the only value `load_config` ever produces for it;
on a dict it mutates in memory and then the unconditional
`save_config(self.app_dir, self.cfg)` raises `TypeError` at `asdict(cfg)`
(`AppConfig` carries no `@dataclass`), leaving the mutated table behind. -/
def _add_mapping (mappings : Option MappingTable) (action trig : String) :
    Option MappingTable × Option PyErr :=
  if trig = "" then (mappings, none)
  else
    match mappings with
    | none => (none, some PyErr.attributeError)
    | some m => (some (addMappingMutation m action trig), some PyErr.typeError)

/-- `MainWindow._remove_mapping` in full: `rows` holds the selected
`(trigger, action)` cell texts (table columns 0 and 1).  An empty selection
returns early (no flush).  Otherwise every row's membership-guarded
`list.remove` runs — the guard reads `(self.cfg.mappings or {})`, so it is
safe (and a no-op) even when `mappings` is `None` — and then the
unconditional `save_config` raises `TypeError` at `asdict(cfg)`. -/
def _remove_mapping (mappings : Option MappingTable)
    (rows : List (String × String)) : Option MappingTable × Option PyErr :=
  match rows with
  | [] => (mappings, none)
  | _ :: _ =>
      match mappings with
      | none => (none, some PyErr.typeError)
      | some m =>
          (some (rows.foldl (fun acc r => removeMappingMutation acc r.2 r.1) m),
            some PyErr.typeError)

/-- `_handle` in `_wire_bus`: the actions fired for a published topic —
`for action, triggers in mappings.items(): if topic in triggers: dispatch(action, …)`. -/
def triggersFor (m : MappingTable) (topic : String) : List String :=
  (m.filter (fun p => decide (topic ∈ p.2))).map Prod.fst

/-- A single UI mutation of the mapping table. -/
inductive MapOp where
  | add (action trig : String)
  | remove (action trig : String)
deriving DecidableEq

/-- The in-memory effect of one mutation (the empty-trigger early return of
`_add_mapping` included). -/
def applyOp (m : MappingTable) : MapOp → MappingTable
  | .add action trig => if trig = "" then m else addMappingMutation m action trig
  | .remove action trig => removeMappingMutation m action trig

/-- Apply a sequence of add/remove mutations, oldest first. -/
def applyOps (m : MappingTable) (ops : List MapOp) : MappingTable :=
  ops.foldl applyOp m

theorem containsAction_iff (m : MappingTable) (a : String) :
    containsAction m a = true ↔ a ∈ m.map Prod.fst := by
  induction m with
  | nil => simp [containsAction]
  | cons p rest ih =>
      simp only [containsAction, Bool.or_eq_true, decide_eq_true_eq, List.map_cons,
        List.mem_cons, ih]
      constructor
      · rintro (h | h)
        · exact Or.inl h.symm
        · exact Or.inr h
      · rintro (h | h)
        · exact Or.inl h.symm
        · exact Or.inr h

theorem keys_mapEntry (m : MappingTable) (a : String) (f : List String → List String) :
    (mapEntry m a f).map Prod.fst = m.map Prod.fst := by
  induction m with
  | nil => simp [mapEntry]
  | cons p rest ih =>
      by_cases hp : p.1 = a
      · simp [mapEntry, hp]
      · simp [mapEntry, hp, ih]

theorem keys_setdefaultEmpty (m : MappingTable) (a : String)
    (h : (m.map Prod.fst).Nodup) :
    ((setdefaultEmpty m a).map Prod.fst).Nodup := by
  by_cases hc : containsAction m a = true
  · simpa [setdefaultEmpty, hc] using h
  · have ha : a ∉ m.map Prod.fst := fun hmem => hc ((containsAction_iff m a).mpr hmem)
    have hdisj : (m.map Prod.fst).Disjoint [a] := by
      intro x hx hxa
      rcases List.mem_singleton.mp hxa with rfl
      exact ha hx
    have : (m.map Prod.fst ++ [a]).Nodup :=
      List.nodup_append.mpr ⟨h, List.nodup_singleton a, hdisj⟩
    simpa [setdefaultEmpty, hc] using this

theorem keys_applyOp (m : MappingTable) (op : MapOp)
    (h : (m.map Prod.fst).Nodup) : ((applyOp m op).map Prod.fst).Nodup := by
  cases op with
  | add action trig =>
      by_cases ht : trig = ""
      · simpa [applyOp, ht] using h
      · simpa [applyOp, addMappingMutation, ht, keys_mapEntry]
          using keys_setdefaultEmpty m action h
  | remove action trig =>
      by_cases hc : containsAction m action ∧ trig ∈ lookupTriggers m action
      · simpa [applyOp, removeMappingMutation, hc, keys_mapEntry] using h
      · simpa [applyOp, removeMappingMutation, hc] using h

theorem keys_applyOps (ops : List MapOp) :
    ∀ m : MappingTable, (m.map Prod.fst).Nodup →
      ((applyOps m ops).map Prod.fst).Nodup := by
  induction ops with
  | nil => intro m h; simpa [applyOps] using h
  | cons op rest ih =>
      intro m h
      have : applyOps m (op :: rest) = applyOps (applyOp m op) rest := by
        simp [applyOps]
      rw [this]
      exact ih _ (keys_applyOp m op h)

theorem mem_triggersFor (m : MappingTable) (topic a : String) :
    a ∈ triggersFor m topic ↔ ∃ ts, (a, ts) ∈ m ∧ topic ∈ ts := by
  simp only [triggersFor, List.mem_map, List.mem_filter, decide_eq_true_eq]
  constructor
  · rintro ⟨⟨a', ts⟩, ⟨hmem, htop⟩, rfl⟩
    exact ⟨ts, hmem, htop⟩
  · rintro ⟨ts, hmem, htop⟩
    exact ⟨(a, ts), ⟨hmem, htop⟩, rfl⟩

theorem nodup_triggersFor (m : MappingTable) (topic : String)
    (h : (m.map Prod.fst).Nodup) : (triggersFor m topic).Nodup := by
  have hsub : List.Sublist
      ((m.filter (fun p => decide (topic ∈ p.2))).map Prod.fst) (m.map Prod.fst) :=
    List.Sublist.map Prod.fst (List.filter_sublist m)
  exact h.sublist hsub

theorem containsAction_of_mem_lookup (m : MappingTable) (a trig : String)
    (h : trig ∈ lookupTriggers m a) : containsAction m a = true := by
  induction m with
  | nil => simp [lookupTriggers] at h
  | cons p rest ih =>
      cases p with
      | mk a' ts =>
          by_cases hp : a' = a
          · simp [containsAction, hp]
          · have hrest : trig ∈ lookupTriggers rest a := by
              simpa [lookupTriggers, hp] using h
            simp [containsAction, hp, ih hrest]

theorem mapEntry_guarded_append_id (m : MappingTable) (a trig : String)
    (h : trig ∈ lookupTriggers m a) :
    mapEntry m a (fun ts => if trig ∈ ts then ts else ts ++ [trig]) = m := by
  induction m with
  | nil => rfl
  | cons p rest ih =>
      cases p with
      | mk a' ts =>
          by_cases hp : a' = a
          · have hts : trig ∈ ts := by simpa [lookupTriggers, hp] using h
            simp [mapEntry, hp, hts]
          · have hrest : trig ∈ lookupTriggers rest a := by
              simpa [lookupTriggers, hp] using h
            simp [mapEntry, hp, ih hrest]

theorem addMappingMutation_mem_noop (m : MappingTable) (a trig : String)
    (h : trig ∈ lookupTriggers m a) : addMappingMutation m a trig = m := by
  have hc := containsAction_of_mem_lookup m a trig h
  simp [addMappingMutation, setdefaultEmpty, hc, mapEntry_guarded_append_id m a trig h]

theorem removeMappingMutation_not_mem_noop (m : MappingTable) (a trig : String)
    (h : trig ∉ lookupTriggers m a) : removeMappingMutation m a trig = m := by
  have : ¬ (containsAction m a ∧ trig ∈ lookupTriggers m a) := fun hand => h hand.2
  simp [removeMappingMutation, this]

/-- The relation the spec ascribes to the mapping table holds of the
in-memory dict logic of `_add_mapping`/`_remove_mapping`/`_handle`: from any
table with distinct action keys, after an arbitrary sequence of in-memory
mutations, `triggersFor topic` lists exactly the actions whose trigger list
contains `topic`, each at most once; a duplicate add and an absent remove
leave the table unchanged.  (Supporting result only — see
`mapping_calls_raise` for why the methods as shipped nonetheless raise.) -/
theorem mapping_mutation_correct (init : MappingTable)
    (hkeys : (init.map Prod.fst).Nodup) (ops : List MapOp) (topic : String) :
    (∀ a, a ∈ triggersFor (applyOps init ops) topic
        ↔ ∃ ts, (a, ts) ∈ applyOps init ops ∧ topic ∈ ts)
    ∧ (triggersFor (applyOps init ops) topic).Nodup
    ∧ (∀ a trig, trig ∈ lookupTriggers (applyOps init ops) a →
        addMappingMutation (applyOps init ops) a trig = applyOps init ops)
    ∧ (∀ a trig, trig ∉ lookupTriggers (applyOps init ops) a →
        removeMappingMutation (applyOps init ops) a trig = applyOps init ops) := by
  refine ⟨fun a => mem_triggersFor _ topic a,
    nodup_triggersFor _ topic (keys_applyOps ops init hkeys),
    fun a trig h => addMappingMutation_mem_noop _ a trig h,
    fun a trig h => removeMappingMutation_not_mem_noop _ a trig h⟩

/-- The mapping table `AppConfig.__post_init__` installs when `mappings` is
`None` (transcribed from `core/config.py`; see the C6 analysis for whether
that installer actually runs). -/
def defaultMappings : MappingTable :=
  [("toggle_listen", ["button_single"]),
   ("send_last_transcript", ["button_double"]),
   ("cycle_llm", ["button_long"])]

/-- **C5 (failing-input evaluation).** The claim's "no-op, not an error" is
false of the shipped methods: on the only configuration state `load_config`
can produce (`cfg.mappings = None`, see the `load_config` section)
`_add_mapping` raises `AttributeError` at `mappings.setdefault`; and even on
a dict-valued table, adding an already-present trigger or removing a
never-added one leaves the table unchanged in memory (the claimed no-op) but
then raises `TypeError` in the unconditional `save_config` flush
(`asdict` on the undecorated `AppConfig`).  The in-memory relation itself is
`mapping_mutation_correct`. -/
theorem mapping_calls_raise :
    _add_mapping none "toggle_listen" "button_single"
      = (none, some PyErr.attributeError)
    ∧ _add_mapping (some defaultMappings) "toggle_listen" "button_single"
        = (some defaultMappings, some PyErr.typeError)
    ∧ _remove_mapping (some defaultMappings) [("tap", "toggle_listen")]
        = (some defaultMappings, some PyErr.typeError)
    ∧ _remove_mapping none [("tap", "toggle_listen")]
        = (none, some PyErr.typeError)
    ∧ _remove_mapping (some defaultMappings) [] = (some defaultMappings, none) := by
  refine ⟨rfl, by decide, by decide, rfl, rfl⟩

/-! ## NotificationClassifier (`ble/ring_controller.py`, `subscribe._cb`)

The notify callback publishes a `raw_notify` event with
`{"uuid": char_uuid, "data_hex": data.hex()}` first, then decodes the payload
(`bytes(data).decode("utf-8", errors="ignore").strip().lower()`) and publishes
at most one gesture event when the text matches one of the fixed tokens. -/

/-- One lowercase hex digit, as `bytes.hex` produces. -/
def hexDigit (n : Nat) : Char :=
  if n < 10 then Char.ofNat (48 + n) else Char.ofNat (87 + n)

/-- `data.hex()`: two lowercase hex digits per byte. -/
def bytesHex (data : List Nat) : String :=
  String.mk ((data.map (fun b => [hexDigit (b / 16), hexDigit (b % 16)])).flatten)

/-- A UTF-8 continuation byte. -/
def isCont (b : Nat) : Bool := 128 ≤ b && b ≤ 191

/-- Admissible second byte of a three-byte sequence (lead `b`): the ranges of
RFC 3629, which exclude overlong encodings (lead `0xE0`) and surrogates
(lead `0xED`). -/
def cont1Ok3 (b c1 : Nat) : Bool :=
  if b = 224 then 160 ≤ c1 && c1 ≤ 191
  else if b = 237 then 128 ≤ c1 && c1 ≤ 159
  else isCont c1

/-- Admissible second byte of a four-byte sequence (lead `b`): excludes
overlong encodings (lead `0xF0`) and code points above `U+10FFFF` (lead
`0xF4`). -/
def cont1Ok4 (b c1 : Nat) : Bool :=
  if b = 240 then 144 ≤ c1 && c1 ≤ 191
  else if b = 244 then 128 ≤ c1 && c1 ≤ 143
  else isCont c1

/-- One UTF-8 decoding step at lead byte `b` with remaining input `rest`:
returns the decoded character (or `none` for an ill-formed subsequence) and
how many bytes of `rest` the step consumed beyond the lead byte.  The lead
ranges and continuation constraints are those of RFC 3629; `none` with a
partial consumption count drops exactly the maximal subpart of an ill-formed
sequence, as CPython's `ignore` error handler does. -/
def utf8Step (b : Nat) (rest : List Nat) : Option Char × Nat :=
  if b ≤ 127 then (some (Char.ofNat b), 0)
  else if 194 ≤ b && b ≤ 223 then
    match rest with
    | [] => (none, 0)
    | c1 :: _ =>
      if isCont c1 then (some (Char.ofNat ((b - 192) * 64 + (c1 - 128))), 1)
      else (none, 0)
  else if 224 ≤ b && b ≤ 239 then
    match rest with
    | [] => (none, 0)
    | c1 :: r1 =>
      if cont1Ok3 b c1 then
        match r1 with
        | [] => (none, 1)
        | c2 :: _ =>
          if isCont c2 then
            (some (Char.ofNat ((b - 224) * 4096 + (c1 - 128) * 64 + (c2 - 128))), 2)
          else (none, 1)
      else (none, 0)
  else if 240 ≤ b && b ≤ 244 then
    match rest with
    | [] => (none, 0)
    | c1 :: r1 =>
      if cont1Ok4 b c1 then
        match r1 with
        | [] => (none, 1)
        | c2 :: r2 =>
          if isCont c2 then
            match r2 with
            | [] => (none, 2)
            | c3 :: _ =>
              if isCont c3 then
                (some (Char.ofNat ((b - 240) * 262144 + (c1 - 128) * 4096
                    + (c2 - 128) * 64 + (c3 - 128))), 3)
              else (none, 2)
          else (none, 1)
      else (none, 0)
  else (none, 0)

/-- Decoding loop, with a fuel argument for structural recursion; every step
consumes at least the lead byte, so `data.length` fuel always suffices. -/
def utf8DecodeAux : Nat → List Nat → List Char
  | 0, _ => []
  | _, [] => []
  | fuel + 1, b :: rest =>
      match utf8Step b rest with
      | (some c, k) => c :: utf8DecodeAux fuel (rest.drop k)
      | (none, k) => utf8DecodeAux fuel (rest.drop k)

/-- `bytes(data).decode("utf-8", errors="ignore")`: standard UTF-8 decoding
where every ill-formed subsequence is skipped (truncated sequences at the end
of the input are dropped as well). -/
def utf8DecodeIgnore (data : List Nat) : List Char :=
  utf8DecodeAux data.length data

/-- Python's default `str.strip` whitespace test, restricted to the code
points this embedding ranges over (the ASCII/Latin-1 whitespace; the further
Unicode space code points Python also strips behave identically for every
property proved here, since the classifier only compares against ASCII
tokens). -/
def isPySpace (c : Char) : Bool :=
  (9 ≤ c.toNat && c.toNat ≤ 13) || c.toNat = 32 || (28 ≤ c.toNat && c.toNat ≤ 31)
    || c.toNat = 133 || c.toNat = 160

/-- `str.strip()`: drop leading and trailing whitespace. -/
def pyStrip (s : List Char) : List Char :=
  ((s.dropWhile isPySpace).reverse.dropWhile isPySpace).reverse

/-- `str.lower()` (ASCII case mapping; non-ASCII letters are left unchanged
in this embedding — they can never equal the ASCII token strings either way). -/
def pyLower (s : List Char) : List Char := s.map Char.toLower

/-- The decode expression of `_cb`:
`bytes(data).decode("utf-8", errors="ignore").strip().lower()` (the dead
`except` around it can never fire: decoding with `errors="ignore"` does not
raise). -/
def decodedText (data : List Nat) : String :=
  String.mk (pyLower (pyStrip (utf8DecodeIgnore data)))

/-- The bus events `_cb` schedules, in scheduling order. -/
inductive RingEvent where
  | rawNotify (uuid : String) (dataHex : String)
  | gesture (topic : String) (uuid : String) (text : String)
deriving DecidableEq

/-- The notify callback `_cb` of `RingController.subscribe`: always publish
the `raw_notify` event first, then at most one gesture event selected by the
`if txt in (...)` chain. -/
def classifyNotification (uuid : String) (data : List Nat) : List RingEvent :=
  RingEvent.rawNotify uuid (bytesHex data) ::
    (if decodedText data ∈ ["single", "button_single", "tap"] then
        [RingEvent.gesture "button_single" uuid (decodedText data)]
      else if decodedText data ∈ ["double", "button_double", "dbl"] then
        [RingEvent.gesture "button_double" uuid (decodedText data)]
      else if decodedText data ∈ ["long", "button_long", "hold"] then
        [RingEvent.gesture "button_long" uuid (decodedText data)]
      else [])

/-- The spec's token vocabulary: the nine tokens that produce a gesture
event (written from the spec's words, as the refinement target). -/
def nineTokens : List String :=
  ["single", "button_single", "tap", "double", "button_double", "dbl",
   "long", "button_long", "hold"]

/-- The spec's token table (written from the spec's words, as the refinement
target): the gesture topic a decoded text maps to, if any. -/
def specGestureTopic (txt : String) : Option String :=
  if txt ∈ ["single", "button_single", "tap"] then some "button_single"
  else if txt ∈ ["double", "button_double", "dbl"] then some "button_double"
  else if txt ∈ ["long", "button_long", "hold"] then some "button_long"
  else none

theorem specGestureTopic_none_iff (txt : String) :
    specGestureTopic txt = none ↔ txt ∉ nineTokens := by
  by_cases h1 : txt ∈ ["single", "button_single", "tap"]
  · have h9 : txt ∈ nineTokens := by
      rcases (by simpa using h1 : txt = "single" ∨ txt = "button_single" ∨ txt = "tap")
        with rfl | rfl | rfl <;> decide
    simp [specGestureTopic, h1, h9]
  · by_cases h2 : txt ∈ ["double", "button_double", "dbl"]
    · have h9 : txt ∈ nineTokens := by
        rcases (by simpa using h2 : txt = "double" ∨ txt = "button_double" ∨ txt = "dbl")
          with rfl | rfl | rfl <;> decide
      simp [specGestureTopic, h1, h2, h9]
    · by_cases h3 : txt ∈ ["long", "button_long", "hold"]
      · have h9 : txt ∈ nineTokens := by
          rcases (by simpa using h3 : txt = "long" ∨ txt = "button_long" ∨ txt = "hold")
            with rfl | rfl | rfl <;> decide
        simp [specGestureTopic, h1, h2, h3, h9]
      · have h9 : txt ∉ nineTokens := by
          intro hmem
          simp only [nineTokens, List.mem_cons, List.not_mem_nil, or_false] at hmem
          simp only [List.mem_cons, List.not_mem_nil, or_false, not_or] at h1 h2 h3
          tauto
        simp [specGestureTopic, h1, h2, h3, h9]

/-- **C2.** For every raw payload, the callback's event list is exactly the
`raw_notify` event followed by the spec's table applied to the decoded,
stripped, lowered text: one raw event first, at most one gesture event, the
gesture present (with the mapped topic) precisely when the text is one of the
nine tokens. -/
theorem classify_raw_then_gesture (uuid : String) (data : List Nat) :
    classifyNotification uuid data
      = RingEvent.rawNotify uuid (bytesHex data) ::
          (match specGestureTopic (decodedText data) with
            | some topic => [RingEvent.gesture topic uuid (decodedText data)]
            | none => [])
    ∧ (specGestureTopic (decodedText data) = none ↔ decodedText data ∉ nineTokens) := by
  constructor
  · unfold classifyNotification specGestureTopic
    split_ifs <;> rfl
  · exact specGestureTopic_none_iff _

/-! ## BLEManager.connect (`ble/ble_manager.py`)

`connect(address, timeout)` first disconnects, resolves the address
(`BleakScanner.find_device_by_address`, exceptions turned into `device=None`),
builds a client on `device or address` and connects; on the first connect
failure it sleeps 0.5 s, re-resolves, rebuilds the client and connects once
more, re-raising the *first* error if anything in the retry block fails; a
connect that returns but leaves `client.is_connected` false raises a
`RuntimeError` (this check sits after the whole try/except). -/

/-- Observable steps of one `connect` call, in order. -/
inductive ConnectStep where
  | disconnectCall
  | resolveAddress
  | sleepMs (ms : Nat)
  | connectAttempt (target : String)
deriving DecidableEq

/-- The outcomes the BLE transport produces during one `connect(address)`
call: the two `find_device_by_address` results (a device's address, or `None`
for not found), the two `client.connect()` results, and the two possible
`client.is_connected` probes. -/
structure TransportOutcomes where
  resolve1 : Except String (Option String)
  connect1 : Except String Unit
  resolve2 : Except String (Option String)
  connect2 : Except String Unit
  isConnected1 : Bool
  isConnected2 : Bool

/-- `device or address` after a resolution whose exception was already turned
into `device = None` (`except Exception: device = None`). -/
def resolveTarget (r : Except String (Option String)) (address : String) : String :=
  match r with
  | .ok (some d) => d
  | .ok none => address
  | .error _ => address

/-- `BLEManager.connect(address, timeout)`: the connected target (or the
exception the call raises) together with the ordered observable steps. -/
def bleConnect (env : TransportOutcomes) (address : String) :
    Except String String × List ConnectStep :=
  let t1 := resolveTarget env.resolve1 address
  match env.connect1 with
  | .ok _ =>
      if env.isConnected1 then
        (.ok t1, [.disconnectCall, .resolveAddress, .connectAttempt t1])
      else
        (.error ("Failed to connect to " ++ address),
          [.disconnectCall, .resolveAddress, .connectAttempt t1])
  | .error e1 =>
      match env.resolve2 with
      | .error _ =>
          (.error e1,
            [.disconnectCall, .resolveAddress, .connectAttempt t1, .sleepMs 500,
              .resolveAddress])
      | .ok d2 =>
          match env.connect2 with
          | .error _ =>
              (.error e1,
                [.disconnectCall, .resolveAddress, .connectAttempt t1, .sleepMs 500,
                  .resolveAddress, .connectAttempt (d2.getD address)])
          | .ok _ =>
              if env.isConnected2 then
                (.ok (d2.getD address),
                  [.disconnectCall, .resolveAddress, .connectAttempt t1, .sleepMs 500,
                    .resolveAddress, .connectAttempt (d2.getD address)])
              else
                (.error ("Failed to connect to " ++ address),
                  [.disconnectCall, .resolveAddress, .connectAttempt t1, .sleepMs 500,
                    .resolveAddress, .connectAttempt (d2.getD address)])

/-- The step is a `connectAttempt`. -/
def isConnectAttempt : ConnectStep → Bool
  | .connectAttempt _ => true
  | _ => false

/-- **C3.** When the first connect attempt raises `e1`: a successful (and
actually connected) second attempt makes the call return success; a failing
second attempt — whether re-resolution or the connect itself raises — makes
the call raise the *first* error `e1`, not the second; and in every such run
there is exactly one 500 ms backoff, at most two connect attempts, and two
address resolutions, with the backoff and the re-resolution between the two
attempts. -/
theorem connect_retry_policy (env : TransportOutcomes) (address : String)
    (e1 : String) (h1 : env.connect1 = .error e1) :
    (∀ d2, env.resolve2 = .ok d2 → env.connect2 = .ok () → env.isConnected2 = true →
        bleConnect env address
          = (.ok (d2.getD address),
              [.disconnectCall, .resolveAddress,
                .connectAttempt (resolveTarget env.resolve1 address), .sleepMs 500,
                .resolveAddress, .connectAttempt (d2.getD address)]))
    ∧ (∀ e2, env.connect2 = .error e2 → (bleConnect env address).1 = .error e1)
    ∧ (∀ er, env.resolve2 = .error er → (bleConnect env address).1 = .error e1)
    ∧ (bleConnect env address).2.countP (fun s => decide (s = .sleepMs 500)) = 1
    ∧ (bleConnect env address).2.countP isConnectAttempt ≤ 2
    ∧ (bleConnect env address).2.countP (fun s => decide (s = .resolveAddress)) = 2 := by
  obtain ⟨r1, c1, r2, c2, i1, i2⟩ := env
  simp only at h1
  subst h1
  refine ⟨?_, ?_, ?_, ?_, ?_, ?_⟩
  · rintro d2 hr2 hc2 hi2
    simp only at hr2 hc2 hi2
    subst hr2; subst hc2
    simp [bleConnect, hi2]
  · rintro e2 hc2
    simp only at hc2
    subst hc2
    cases r2 with
    | ok d2 => simp [bleConnect]
    | error er => simp [bleConnect]
  · rintro er hr2
    simp only at hr2
    subst hr2
    simp [bleConnect]
  · cases r2 with
    | ok d2 =>
        cases c2 with
        | ok u => cases i2 <;> simp [bleConnect, List.countP_cons, List.countP_nil]
        | error e2 => simp [bleConnect, List.countP_cons, List.countP_nil]
    | error er => simp [bleConnect, List.countP_cons, List.countP_nil]
  · cases r2 with
    | ok d2 =>
        cases c2 with
        | ok u => cases i2 <;> simp [bleConnect, List.countP_cons, List.countP_nil, isConnectAttempt]
        | error e2 => simp [bleConnect, List.countP_cons, List.countP_nil, isConnectAttempt]
    | error er => simp [bleConnect, List.countP_cons, List.countP_nil, isConnectAttempt]
  · cases r2 with
    | ok d2 =>
        cases c2 with
        | ok u => cases i2 <;> simp [bleConnect, List.countP_cons, List.countP_nil]
        | error e2 => simp [bleConnect, List.countP_cons, List.countP_nil]
    | error er => simp [bleConnect, List.countP_cons, List.countP_nil]

/-- Concrete transport outcomes where both connect attempts fail with
distinct errors (used by the C3 witness). -/
def bothAttemptsFail : TransportOutcomes :=
  { resolve1 := .ok none, connect1 := .error "first timeout",
    resolve2 := .ok (some "AA:BB"), connect2 := .error "second timeout",
    isConnected1 := false, isConnected2 := false }

/-- Witness for `connect_retry_policy`: both attempts fail; the call reports
the first error, after one backoff and one retry. -/
theorem connect_retry_policy_witness :
    bothAttemptsFail.connect1 = .error "first timeout"
    ∧ (∀ e2, bothAttemptsFail.connect2 = .error e2 →
        (bleConnect bothAttemptsFail "11:22").1 = .error "first timeout") :=
  ⟨rfl, (connect_retry_policy bothAttemptsFail "11:22" "first timeout" rfl).2.1⟩

/-! ## BLEManager.scan (`ble/ble_manager.py`)

The detection callback stores `found[device.address] = (device, adv)` (dict
update: last advertisement per address wins, insertion order kept); after the
scan window, the loop over `found.items()` constructs one
`DiscoveredDevice(address=…, name=…, rssi=…)` per entry and the list is sorted
by RSSI descending.  `DiscoveredDevice` is declared with bare annotations and
the imported `@dataclass` decorator is never applied, so that keyword
construction raises `TypeError` on the first entry. -/

/-- One advertisement as the detection callback receives it: the device's
address and `.name`, and the advertisement's `.local_name` and `.rssi`. -/
structure Advertisement where
  address : String
  localName : Option String
  devName : Option String
  rssi : Option Int
deriving DecidableEq

/-- The dict update `found[device.address] = (device, adv)`: overwrite in
place if the address is present, append otherwise. -/
def writeFound : List (String × Advertisement) → Advertisement →
    List (String × Advertisement)
  | [], a => [(a.address, a)]
  | (addr, old) :: rest, a =>
      if addr = a.address then (addr, a) :: rest
      else (addr, old) :: writeFound rest a

/-- The `found` dict after all advertisements of the scan window were seen in
order. -/
def collectFound (ads : List Advertisement) : List (String × Advertisement) :=
  ads.foldl writeFound []

/-- `(adv.local_name or dev.name or "")` — Python `or` skips `None` and the
empty string. -/
def pyOrStr (x y : Option String) : String :=
  if x.getD "" ≠ "" then x.getD ""
  else if y.getD "" ≠ "" then y.getD ""
  else ""

/-- `int(getattr(adv, "rssi", 0) or 0)`: a missing/`None`/zero RSSI becomes
`0`. -/
def renderRssi (r : Option Int) : Int :=
  match r with
  | none => 0
  | some v => if v = 0 then 0 else v

/-- The record the `@dataclass` decorator would generate for
`DiscoveredDevice` (the class body holds exactly these annotated fields; in
the source the decorator — though imported — is never applied, so no keyword
constructor exists). -/
structure DiscoveredDevice where
  address : String
  name : String
  rssi : Int
deriving DecidableEq

/-- `BLEManager.scan` exactly as the source runs: after collecting `found`,
the output loop's first keyword construction
`DiscoveredDevice(address=…, name=…, rssi=…)` raises `TypeError` (plain class,
no generated `__init__`), so any scan that saw at least one advertisement
raises, and only a zero-advertisement scan returns (the empty list). -/
def scanLiteral (ads : List Advertisement) : Except PyErr (List DiscoveredDevice) :=
  match collectFound ads with
  | [] => .ok []
  | _ :: _ => .error .typeError

/-- `scan` as the intended `@dataclass` decorator would make it behave: render
each `found` entry (stripped `or`-chained name, defaulted RSSI) and sort by
RSSI descending — `out.sort(key=lambda d: d.rssi, reverse=True)` is a stable
descending sort, here `insertionSort` with the total preorder `d2.rssi ≤ d1.rssi`. -/
def scanIntended (ads : List Advertisement) : List DiscoveredDevice :=
  List.insertionSort (fun d1 d2 => d2.rssi ≤ d1.rssi)
    ((collectFound ads).map (fun p =>
      { address := p.1,
        name := String.mk (pyStrip (pyOrStr p.2.localName p.2.devName).data),
        rssi := renderRssi p.2.rssi }))

/-- The spec's end-to-end scan scenario: `A (rssi=-40)`, `B (rssi=-70)`,
`A (rssi=-38, updated)`. -/
def advA1 : Advertisement :=
  { address := "A", localName := some "RingA", devName := none, rssi := some (-40) }

/-- Advertisement from `B` with RSSI −70. -/
def advB : Advertisement :=
  { address := "B", localName := some "RingB", devName := none, rssi := some (-70) }

/-- Updated advertisement from `A` with RSSI −38. -/
def advA2 : Advertisement :=
  { address := "A", localName := some "RingA", devName := none, rssi := some (-38) }

/-- **C4 (failing-input evaluation).** A scan with zero advertisements indeed
returns the empty list without throwing, but the spec's own three-advertisement
scenario makes the source's `scan` raise `TypeError` — `DiscoveredDevice` is
never decorated with the imported `@dataclass`, so its keyword construction
fails — instead of returning the deduplicated, RSSI-sorted list; that intended
list is exactly what the dataclass-repaired `scanIntended` produces. -/
theorem scan_literal_raises_on_nonempty :
    scanLiteral [] = .ok []
    ∧ scanLiteral [advA1, advB, advA2] = .error .typeError
    ∧ scanLiteral [advA1, advB, advA2] ≠ .ok (scanIntended [advA1, advB, advA2])
    ∧ scanIntended [advA1, advB, advA2]
        = [{ address := "A", name := "RingA", rssi := -38 },
            { address := "B", name := "RingB", rssi := -70 }] := by
  refine ⟨rfl, rfl, ?_, by decide⟩
  intro h
  simp [scanLiteral, collectFound, writeFound, advA1, advB, advA2] at h

/-! ## RingController.gatt_summary (`ble/ring_controller.py`)

`gatt_summary` begins with `client = self.ble.client` — an attribute read,
not a call: `BLEManager.client` is a method, so the read yields the bound
method object, never `None`.  The guard `if client is None: return []`
therefore never fires, and the next line `services = client.services` reads a
missing attribute off a function object and raises `AttributeError`. -/

/-- `BLEManager`'s connection state: `self._client`. -/
structure BLEManagerState where
  _client : Option Unit
deriving DecidableEq

/-- What a Python attribute read relevant here can yield. -/
inductive AttrValue where
  | noneObj
  | boundMethod
deriving DecidableEq

/-- The read `self.ble.client` (no call parentheses in the source): it always
yields the bound method `BLEManager.client`, whatever `_client` holds. -/
def bleClientAttr (_ : BLEManagerState) : AttrValue := .boundMethod

/-- The service summary entries `gatt_summary` is documented to return (shape
only — the code below can never build one). -/
structure ServiceSummary where
  uuid : String
  description : String
  characteristics : List (String × List String × String)
deriving DecidableEq

/-- `RingController.gatt_summary`: `client = self.ble.client`;
`if client is None: return []`; `services = client.services` — the guard
cannot fire (the attribute is the bound method, never `None`) and the
`.services` read off a function object raises `AttributeError`. -/
def gatt_summary (mgr : BLEManagerState) : Except PyErr (List ServiceSummary) :=
  match bleClientAttr mgr with
  | .noneObj => .ok []
  | .boundMethod => .error .attributeError

/-- **C7 (failing-input evaluation).** Called while not connected
(`_client = None`), `gatt_summary` raises `AttributeError` instead of
returning the empty list the spec promises — `self.ble.client` misses the
call parentheses, so the `is None` guard never fires; the same raise happens
even when connected. -/
theorem gatt_summary_raises_when_disconnected :
    gatt_summary { _client := none } = .error .attributeError
    ∧ gatt_summary { _client := none } ≠ .ok []
    ∧ ∀ st : BLEManagerState, gatt_summary st = .error .attributeError := by
  refine ⟨rfl, by simp [gatt_summary, bleClientAttr], fun st => rfl⟩

/-! ## load_config (`core/config.py`)

`AppConfig` (like the other config classes) is written with annotated class
attributes, `field(default_factory=…)` values and a `__post_init__`, but the
imported `@dataclass` decorator is never applied.  Hence `AppConfig()` is a
plain no-argument construction whose instance sees the class attributes —
`mappings` is `None` and `__post_init__` (which would install the default
mapping table) never runs — while the keyword construction
`AppConfig(theme=…, …)` on a parsed file raises `TypeError`, outside the
`try` that guards only `json.loads`. -/

/-- What the persisted `config.json` can look like from `load_config`'s
standpoint. -/
inductive ConfigFile where
  | missing
  | malformed
  | parsedObject
deriving DecidableEq

/-- The configuration object, restricted to the fields the claims mention. -/
structure AppConfigObj where
  theme : String
  last_ble_address : String
  mappings : Option MappingTable
deriving DecidableEq

/-- The object `AppConfig()` evaluates to in the source: class attributes
only; no generated `__init__`, so `__post_init__` never runs and `mappings`
stays `None`. -/
def appConfigNoArg : AppConfigObj :=
  { theme := "dark", last_ble_address := "", mappings := none }

/-- `load_config(app_dir)`: a missing file returns `AppConfig()`; a file
`json.loads` rejects is caught (`except Exception`) and also returns
`AppConfig()`; a successfully parsed file reaches the keyword construction
`AppConfig(theme=…, openai=…, …)`, which raises `TypeError` because
`AppConfig` is not actually a dataclass. -/
def load_config : ConfigFile → Except PyErr AppConfigObj
  | .missing => .ok appConfigNoArg
  | .malformed => .ok appConfigNoArg
  | .parsedObject => .error .typeError

/-- **C6 (failing-input evaluation).** Missing and malformed files indeed
fall back without crashing, but the fallback object's mapping table is `None`,
not the three-entry default table the spec states: the table lives in
`AppConfig.__post_init__`, which never runs because the `@dataclass` decorator
is missing.  (`defaultMappings` is that table, transcribed from
`__post_init__`.) -/
theorem load_config_first_run_mappings_none :
    load_config .missing = .ok appConfigNoArg
    ∧ load_config .malformed = .ok appConfigNoArg
    ∧ appConfigNoArg.mappings = none
    ∧ appConfigNoArg.mappings ≠ some defaultMappings := by
  refine ⟨rfl, rfl, rfl, by decide⟩

end WizprSuite
